import Mathlib

/-
Verification of the accessibility-report aggregation engine
(`report_generator.py`) and of the manual-verdict normalizer
(`ai_evaluator.py`).

Modelling conventions, applied throughout:
* a Python dict with a fixed, known key set becomes a structure whose
  fields are `Option`-valued: `none` models a missing key, so
  `d.get(k, default)` becomes `field.getD default`;
* a Python dict with dynamic keys (insertion ordered) becomes an
  association list `List (String × _)`; `d[k] = d.get(k, 0) + 1`
  becomes `dictIncr`, which updates in place or appends, as Python does;
* Python floats become exact rationals `ℚ` (so `0.7` is `7/10`);
* Python's builtin `round` (round-half-to-even) becomes `pyRound`;
* the clock read `datetime.now().isoformat()` becomes an explicit
  parameter `now : String` of `generate_report`;
* a raised-and-not-caught exception becomes `Except.error`.
-/

/-- Predicate startsWithL: `pat` is an initial segment of `l`
(character-list version of Python's `str.startswith`). -/
def startsWithL : List Char → List Char → Bool
  | [], _ => true
  | _ :: _, [] => false
  | a :: as, b :: bs => a == b && startsWithL as bs

/-- Predicate occursIn: `pat` occurs as a contiguous substring
of `l`; the empty pattern occurs everywhere, as in Python. -/
def occursIn (pat : List Char) : List Char → Bool
  | [] => pat.isEmpty
  | c :: rest => startsWithL pat (c :: rest) || occursIn pat rest

/-- Python's substring test `pat in s`. -/
def pyIn (pat s : String) : Bool := occursIn pat.data s.data

/-- Python's `s.startswith(pre)`. -/
def pyStartsWith (s pre : String) : Bool := startsWithL pre.data s.data

/-- Python's `s.lower()` (ASCII case folding suffices for the engine's
status and priority enumerations). -/
def pyLower (s : String) : String := ⟨s.data.map Char.toLower⟩

/-- Python's `s[:n]`. -/
def pyTake (s : String) (n : Nat) : String := ⟨s.data.take n⟩

/-- Left-to-right, non-overlapping replacement of `pat` by `rep`,
the list-level engine of Python's `s.replace(pat, rep)`. -/
def replaceAll (pat rep : List Char) : List Char → List Char
  | [] => []
  | c :: rest =>
    if h : pat ≠ [] ∧ startsWithL pat (c :: rest) = true then
      rep ++ replaceAll pat rep ((c :: rest).drop pat.length)
    else
      c :: replaceAll pat rep rest
termination_by l => l.length
decreasing_by
  · rcases pat with _ | ⟨p, ps⟩
    · exact absurd rfl h.1
    · simp only [List.drop_succ_cons, List.length_cons, List.length_drop]
      omega
  · simp

/-- Python's `s.replace(pat, rep)`. -/
def pyReplace (s pat rep : String) : String := ⟨replaceAll pat.data rep.data s.data⟩

/-- Python's builtin `round` on an exact rational: round half to even. -/
def pyRound (q : ℚ) : ℤ :=
  let f := ⌊q⌋
  if q - f < 1/2 then f
  else if (1 : ℚ)/2 < q - f then f + 1
  else if f % 2 = 0 then f else f + 1

/-- Python's `round(q, 1)`: round to one decimal place. -/
def pyRound1 (q : ℚ) : ℚ := (pyRound (q * 10) : ℚ) / 10

/-- Lookup in an association list, mirroring `dict.get`. -/
def alGet {α : Type} (d : List (String × α)) (k : String) : Option α :=
  (d.find? (fun p => p.1 == k)).map (·.2)

/-- Assignment `d[k] = v` on an insertion-ordered dict: update the existing entry in
place, else append a new one. -/
def alSet {α : Type} (d : List (String × α)) (k : String) (v : α) : List (String × α) :=
  if d.any (fun p => p.1 == k) then d.map (fun p => if p.1 == k then (k, v) else p)
  else d ++ [(k, v)]

/-- Increment `d[k] = d.get(k, 0) + 1` on an insertion-ordered counting dict. -/
def dictIncr (d : List (String × Nat)) (k : String) : List (String × Nat) :=
  alSet d k ((alGet d k).getD 0 + 1)

/-- A raw manual-verdict record, the dict shape produced by the AI
evaluator and consumed by `report_generator.py`; every key may be absent. -/
structure MVerdict where
  status : Option String := none
  level : Option String := none
  priority : Option String := none
  title : Option String := none
  assessment : Option String := none
  confidence : Option ℚ := none
  issues : Option (List String) := none
  recommendations : Option (List String) := none
  criteria_id : Option String := none
  error : Option String := none
deriving DecidableEq, Repr

/-- One affected-element record of an automated violation (axe-core node). -/
structure AutoNode where
  target : Option (List String) := none
  html : Option String := none
  failureSummary : Option String := none
  impact : Option String := none
deriving DecidableEq, Repr

/-- One automated violation record as produced by the scanner. -/
structure AutoViolation where
  id : Option String := none
  description : Option String := none
  help : Option String := none
  helpUrl : Option String := none
  impact : Option String := none
  tags : Option (List String) := none
  nodes : Option (List AutoNode) := none
deriving DecidableEq, Repr

/-- The automated-results record (`violations`/`passes`/`incomplete`/
`inapplicable`).  The engine only ever takes the length of the last three
collections, so their elements are modelled as `Unit`. -/
structure AutoResults where
  violations : Option (List AutoViolation) := none
  passes : Option (List Unit) := none
  incomplete : Option (List Unit) := none
  inapplicable : Option (List Unit) := none
deriving DecidableEq, Repr

/-- Python truthiness of the automated-results dict: non-empty iff it has
at least one key. -/
def AutoResults.isTruthy (a : AutoResults) : Bool :=
  a.violations.isSome || a.passes.isSome || a.incomplete.isSome || a.inapplicable.isSome

/-- The `analysis_results` input of `generate_report`; `none` models a
missing key. -/
structure AnalysisResults where
  url : Option String := none
  timestamp : Option String := none
  wcag_levels : Option (List String) := none
  automated_results : Option AutoResults := none
  manual_results : Option (List (String × MVerdict)) := none
deriving DecidableEq, Repr

/-- The `meta` section of a report (`_generate_meta_info`). -/
structure MetaInfo where
  url : String
  timestamp : String
  wcag_version : String
  levels_tested : List String
  testing_methods_automated : Bool
  testing_methods_manual : Bool
  report_version : String
deriving DecidableEq, Repr

/-- The `summary` section of a report (`_generate_summary`). -/
structure ReportSummary where
  total_issues : Nat
  automated_violations : Nat
  manual_failures : Nat
  manual_warnings : Nat
  critical_issues : Nat
  high_priority_issues : Nat
  overall_status : String
  key_findings : List String
deriving DecidableEq, Repr

/-- The processed automated section: either `{'available': False}` or the
full record built by `_process_automated_results`. -/
inductive ProcessedAuto where
  | unavailable
  | available (total_violations : Nat) (impact_summary : List (String × Nat))
      (wcag_violations : List (String × Nat)) (violations : List AutoViolation)
      (passes : Nat) (incomplete : Nat)
deriving DecidableEq, Repr

/-- The `available` flag of the processed automated section. -/
def ProcessedAuto.availableFlag : ProcessedAuto → Bool
  | .unavailable => false
  | .available .. => true

/-- The processed manual section: either `{'available': False}` or the
full record built by `_process_manual_results`. -/
inductive ProcessedManual where
  | unavailable
  | available (total_criteria : Nat) (status_summary : List (String × Nat))
      (level_summary : List (String × List (String × Nat)))
      (priority_summary : List (String × Nat))
      (detailed_results : List (String × MVerdict))
deriving DecidableEq, Repr

/-- The `available` flag of the processed manual section. -/
def ProcessedManual.availableFlag : ProcessedManual → Bool
  | .unavailable => false
  | .available .. => true

/-- The `detailed_results` carried by the processed manual section. -/
def ProcessedManual.detailedResults : ProcessedManual → List (String × MVerdict)
  | .unavailable => []
  | .available _ _ _ _ d => d

/-- One per-level row of the WCAG compliance table. -/
@[ext]
structure ComplianceEntry where
  total : Nat
  pass : Nat
  fail : Nat
  compliance_rate : ℚ
deriving DecidableEq, Repr

/-- The WCAG compliance table, keyed by the three fixed levels. -/
structure WcagCompliance where
  A : ComplianceEntry
  AA : ComplianceEntry
  AAA : ComplianceEntry
deriving DecidableEq, Repr

/-- One recommendation entry; the two constructors mirror the two dict
shapes built by `_generate_recommendations` (`'type': 'automated'` and
`'type': 'manual'`). -/
inductive Recommendation where
  | automated (priority : String) (title : String) (description : String)
      (affected_elements : Nat) (wcag_reference : List String) (help_url : String)
      (fix_suggestions : List String)
  | manual (priority : String) (title : String) (description : String)
      (wcag_level : String) (issues : List String) (recommendations : List String)
      (confidence : ℚ)
deriving DecidableEq, Repr

/-- The `priority` field of a recommendation entry. -/
def Recommendation.priority : Recommendation → String
  | .automated p _ _ _ _ _ _ => p
  | .manual p _ _ _ _ _ _ => p

/-- The `type` field of a recommendation entry. -/
def Recommendation.recType : Recommendation → String
  | .automated .. => "automated"
  | .manual .. => "manual"

/-- One formatted affected element (`_format_automated_findings`). -/
structure AffectedElement where
  target : List String
  html : String
  failure_summary : String
  impact : Option String
deriving DecidableEq, Repr

/-- One formatted automated finding (`_format_automated_findings`). -/
structure AutoFinding where
  id : Option String
  description : Option String
  impact : Option String
  help : Option String
  help_url : Option String
  wcag_tags : List String
  affected_elements : List AffectedElement
deriving DecidableEq, Repr

/-- One formatted manual finding (`_format_manual_findings`). -/
structure ManualFinding where
  criteria_id : String
  title : Option String
  level : Option String
  status : Option String
  priority : Option String
  confidence : Option ℚ
  assessment : Option String
  issues : List String
  recommendations : List String
deriving DecidableEq, Repr

/-- The `detailed_findings` section (`_generate_detailed_findings`). -/
structure DetailedFindings where
  automated_findings : List AutoFinding
  manual_findings : List ManualFinding
  cross_references : List (String × List String)
deriving DecidableEq, Repr

/-- The complete report value returned by `generate_report`. -/
structure Report where
  meta : MetaInfo
  summary : ReportSummary
  automated_results : ProcessedAuto
  manual_assessment : ProcessedManual
  wcag_compliance : WcagCompliance
  recommendations : List Recommendation
  detailed_findings : DetailedFindings
  compliance_score : ℤ
deriving DecidableEq, Repr

/-- Embeds `_generate_meta_info`; `now` is the value `datetime.now().isoformat()`
would produce at call time, used only as the default timestamp. -/
def generate_meta_info (now : String) (results : AnalysisResults) : MetaInfo :=
  { url := results.url.getD "Unknown"
    timestamp := results.timestamp.getD now
    wcag_version := "2.1"
    levels_tested := results.wcag_levels.getD ["A", "AA"]
    testing_methods_automated := results.automated_results.isSome
    testing_methods_manual := results.manual_results.isSome
    report_version := "1.0" }

/-- The `manual_score` computation of `_calculate_compliance_score`
(0 unless the manual mapping is truthy). -/
def manual_score_calc (manual_results : List (String × MVerdict)) : ℚ :=
  if !manual_results.isEmpty then
    (if 0 < manual_results.length then
      ((manual_results.countP (fun p => p.2.status == some "pass") : ℚ) /
        (manual_results.length : ℚ)) * 100
     else 0)
  else 0

/-- The `automated_score` computation of `_calculate_compliance_score`
(defaults to a perfect 100 unless the automated record is truthy). -/
def automated_score_calc (automated_results : AutoResults) : ℚ :=
  if automated_results.isTruthy then
    let violations : ℚ := ((automated_results.violations.getD []).length : ℚ)
    let passes : ℚ := ((automated_results.passes.getD []).length : ℚ)
    if 0 < violations + passes then (passes / (violations + passes)) * 100 else 100
  else 100

/-- Embeds `_calculate_compliance_score`: the 70/30 weighted blend of the manual
pass rate and the automated pass rate, rounded to an integer. -/
def calculate_compliance_score (results : AnalysisResults) : ℤ :=
  let manual_results := results.manual_results.getD []
  let automated_results := results.automated_results.getD {}
  if manual_results.isEmpty && !automated_results.isTruthy then 0
  else
    let manual_score : ℚ := manual_score_calc manual_results
    let automated_score : ℚ := automated_score_calc automated_results
    let overall_score : ℚ :=
      if !manual_results.isEmpty && automated_results.isTruthy then
        manual_score * (7/10) + automated_score * (3/10)
      else if !manual_results.isEmpty then manual_score
      else automated_score
    pyRound overall_score

/-- Embeds `_determine_overall_status`: band the compliance score into a label. -/
def determine_overall_status (results : AnalysisResults) : String :=
  let compliance_score := calculate_compliance_score results
  if 90 ≤ compliance_score then "Excellent"
  else if 75 ≤ compliance_score then "Good"
  else if 50 ≤ compliance_score then "Needs Improvement"
  else "Poor"

/-- Embeds `_extract_key_findings`: up to five executive-summary strings. -/
def extract_key_findings (results : AnalysisResults) : List String :=
  let automated_results := results.automated_results.getD {}
  let manual_results := results.manual_results.getD []
  let critical_violations :=
    (automated_results.violations.getD []).filter (fun v => v.impact == some "critical")
  let high_priority_manual :=
    (manual_results.map (·.2)).filter (fun r => r.priority == some "high")
  let findings :=
    (if !critical_violations.isEmpty then
      [toString critical_violations.length ++ " critical accessibility violations found"]
     else [])
    ++ (if !high_priority_manual.isEmpty then
      [toString high_priority_manual.length ++ " high-priority WCAG compliance issues"]
     else [])
    ++ (if critical_violations.isEmpty && high_priority_manual.isEmpty then
      ["No critical accessibility issues detected"]
     else [])
    ++ (if 0 < (manual_results.map (·.2)).countP
          (fun r => pyIn "1.1.1" (r.criteria_id.getD "") && r.status == some "fail") then
      ["Image accessibility needs attention"]
     else [])
  findings.take 5

/-- Embeds `_generate_summary`. -/
def generate_summary (results : AnalysisResults) : ReportSummary :=
  let automated_results := results.automated_results.getD {}
  let manual_results := results.manual_results.getD []
  let automated_violations := (automated_results.violations.getD []).length
  let manual_failures := manual_results.countP (fun p => p.2.status == some "fail")
  let manual_warnings := manual_results.countP (fun p => p.2.status == some "warning")
  let critical_issues := manual_results.countP (fun p => p.2.priority == some "critical")
  let high_issues := manual_results.countP (fun p => p.2.priority == some "high")
      + (automated_results.violations.getD []).countP (fun v => v.impact == some "critical")
  { total_issues := automated_violations + manual_failures
    automated_violations := automated_violations
    manual_failures := manual_failures
    manual_warnings := manual_warnings
    critical_issues := critical_issues
    high_priority_issues := high_issues
    overall_status := determine_overall_status results
    key_findings := extract_key_findings results }

/-- The loop body of `_process_automated_results`: tally one violation
into the impact summary and the per-tag WCAG summary. -/
def auto_tally_step (acc : List (String × Nat) × List (String × Nat))
    (violation : AutoViolation) : List (String × Nat) × List (String × Nat) :=
  let impact := violation.impact.getD "moderate"
  let impact_summary := dictIncr acc.1 impact
  let wcag_violations := (violation.tags.getD []).foldl
    (fun w tag => if pyStartsWith tag "wcag" then dictIncr w tag else w) acc.2
  (impact_summary, wcag_violations)

/-- Embeds `_process_automated_results`. -/
def process_automated_results (automated_results : Option AutoResults) : ProcessedAuto :=
  match automated_results with
  | none => .unavailable
  | some ar =>
    if !ar.isTruthy then .unavailable
    else
      let violations := ar.violations.getD []
      let p := violations.foldl auto_tally_step
        ([("critical", 0), ("serious", 0), ("moderate", 0), ("minor", 0)], [])
      .available violations.length p.1 p.2 violations
        (ar.passes.getD []).length (ar.incomplete.getD []).length

/-- The loop body of `_process_manual_results`: tally one verdict into
the status, level × status and priority summaries. -/
def manual_tally_step
    (acc : List (String × Nat) × List (String × List (String × Nat)) × List (String × Nat))
    (p : String × MVerdict) :
    List (String × Nat) × List (String × List (String × Nat)) × List (String × Nat) :=
  let status := p.2.status.getD "error"
  let level := p.2.level.getD "A"
  let priority := p.2.priority.getD "medium"
  let status_summary := dictIncr acc.1 status
  let level_summary :=
    if acc.2.1.any (fun q => q.1 == level) then
      alSet acc.2.1 level (dictIncr ((alGet acc.2.1 level).getD []) status)
    else acc.2.1
  let priority_summary := dictIncr acc.2.2 priority
  (status_summary, level_summary, priority_summary)

/-- Embeds `_process_manual_results`. -/
def process_manual_results (manual_results : Option (List (String × MVerdict))) :
    ProcessedManual :=
  match manual_results with
  | none => .unavailable
  | some mr =>
    if mr.isEmpty then .unavailable
    else
      let t := mr.foldl manual_tally_step
        ([("pass", 0), ("fail", 0), ("warning", 0), ("error", 0)],
         [("A", [("pass", 0), ("fail", 0), ("warning", 0)]),
          ("AA", [("pass", 0), ("fail", 0), ("warning", 0)]),
          ("AAA", [("pass", 0), ("fail", 0), ("warning", 0)])],
         [("critical", 0), ("high", 0), ("medium", 0), ("low", 0)])
      .available mr.length t.1 t.2.1 t.2.2 mr

/-- Tally one verdict status into a per-level compliance row
(the `if status == 'pass'` branch of `_generate_wcag_compliance_summary`). -/
def compliance_bump (e : ComplianceEntry) (status : String) : ComplianceEntry :=
  if status == "pass" then { e with total := e.total + 1, pass := e.pass + 1 }
  else { e with total := e.total + 1, fail := e.fail + 1 }

/-- The loop body of `_generate_wcag_compliance_summary`: route one
verdict to the row of its level (unknown levels are dropped). -/
def compliance_step (c : WcagCompliance) (p : String × MVerdict) : WcagCompliance :=
  let level := p.2.level.getD "A"
  let status := p.2.status.getD "fail"
  if level == "A" then { c with A := compliance_bump c.A status }
  else if level == "AA" then { c with AA := compliance_bump c.AA status }
  else if level == "AAA" then { c with AAA := compliance_bump c.AAA status }
  else c

/-- The rate pass of `_generate_wcag_compliance_summary`: fill in
`compliance_rate` for a row with at least one verdict. -/
def compliance_finalize (e : ComplianceEntry) : ComplianceEntry :=
  if 0 < e.total then
    { e with compliance_rate := pyRound1 (((e.pass : ℚ) / (e.total : ℚ)) * 100) }
  else e

/-- Embeds `_generate_wcag_compliance_summary`. -/
def generate_wcag_compliance_summary (results : AnalysisResults) : WcagCompliance :=
  let manual_results := results.manual_results.getD []
  let c := manual_results.foldl compliance_step ⟨⟨0, 0, 0, 0⟩, ⟨0, 0, 0, 0⟩, ⟨0, 0, 0, 0⟩⟩
  ⟨compliance_finalize c.A, compliance_finalize c.AA, compliance_finalize c.AAA⟩

/-- Embeds `_map_impact_to_priority`: the fixed impact-to-priority table. -/
def map_impact_to_priority (impact : String) : String :=
  if impact == "critical" then "critical"
  else if impact == "serious" then "high"
  else if impact == "moderate" then "medium"
  else if impact == "minor" then "low"
  else "medium"

/-- Embeds `_generate_fix_suggestions`: canned suggestions chosen by substring
match on the violation identifier, first match wins. -/
def generate_fix_suggestions (violation : AutoViolation) : List String :=
  let violation_id := violation.id.getD ""
  let suggestions :=
    if pyIn "color-contrast" violation_id then
      ["Increase color contrast ratio to meet WCAG standards",
       "Use darker text on light backgrounds or lighter text on dark backgrounds",
       "Test with color contrast analyzers"]
    else if pyIn "image-alt" violation_id then
      ["Add descriptive alt text to images",
       "Use empty alt=\"\" for decorative images",
       "Ensure alt text conveys the same information as the image"]
    else if pyIn "heading" violation_id then
      ["Use proper heading hierarchy (h1, h2, h3, etc.)",
       "Don't skip heading levels",
       "Ensure headings describe the content that follows"]
    else if pyIn "label" violation_id then
      ["Associate labels with form controls",
       "Use aria-label or aria-labelledby when visible labels aren't possible",
       "Ensure all form inputs have accessible names"]
    else []
  if suggestions.isEmpty then
    [violation.help.getD "Review the element and apply accessibility best practices"]
  else suggestions

/-- The sort key of `_generate_recommendations`:
`priority_order.get(p, 2)` with `{'critical': 0, 'high': 1, 'medium': 2, 'low': 3}`. -/
def priority_order_key (p : String) : Nat :=
  if p == "critical" then 0
  else if p == "high" then 1
  else if p == "medium" then 2
  else if p == "low" then 3
  else 2

/-- The automated part of the recommendation list, one entry per
violation, in scan order. -/
def automated_recommendations (results : AnalysisResults) : List Recommendation :=
  let automated_results := results.automated_results.getD {}
  (automated_results.violations.getD []).map (fun violation =>
    .automated (map_impact_to_priority (violation.impact.getD "moderate"))
      (violation.description.getD "Unknown issue")
      (violation.help.getD "No description available")
      (violation.nodes.getD []).length
      (violation.tags.getD [])
      (violation.helpUrl.getD "")
      (generate_fix_suggestions violation))

/-- The manual part of the recommendation list, one entry per verdict
whose status is `fail` or `warning`, in catalog order. -/
def manual_recommendations (results : AnalysisResults) : List Recommendation :=
  (results.manual_results.getD []).filterMap (fun p =>
    if p.2.status == some "fail" || p.2.status == some "warning" then
      some (.manual (p.2.priority.getD "medium")
        (p.1 ++ ": " ++ p.2.title.getD "Unknown criteria")
        (p.2.assessment.getD "No assessment available")
        (p.2.level.getD "A")
        (p.2.issues.getD [])
        (p.2.recommendations.getD [])
        (p.2.confidence.getD (1/2)))
    else none)

/-- Embeds the sort call of `_generate_recommendations`:
Python's sort is stable, and for a key valued in {0, 1, 2, 3} the stable
sort result is exactly the concatenation of the key classes in key order. -/
def stable_sort_by_priority (recs : List Recommendation) : List Recommendation :=
  (recs.filter (fun r => priority_order_key r.priority == 0))
  ++ (recs.filter (fun r => priority_order_key r.priority == 1))
  ++ (recs.filter (fun r => priority_order_key r.priority == 2))
  ++ (recs.filter (fun r => priority_order_key r.priority == 3))

/-- Embeds `_generate_recommendations`. -/
def generate_recommendations (results : AnalysisResults) : List Recommendation :=
  stable_sort_by_priority (automated_recommendations results ++ manual_recommendations results)

/-- Embeds `_format_automated_findings`. -/
def format_automated_findings (automated_results : Option AutoResults) : List AutoFinding :=
  match automated_results with
  | none => []
  | some ar =>
    if !ar.isTruthy then []
    else (ar.violations.getD []).map (fun violation =>
      { id := violation.id
        description := violation.description
        impact := violation.impact
        help := violation.help
        help_url := violation.helpUrl
        wcag_tags := violation.tags.getD []
        affected_elements := (violation.nodes.getD []).map (fun node =>
          { target := node.target.getD []
            html := node.html.getD ""
            failure_summary := node.failureSummary.getD ""
            impact := node.impact }) })

/-- Embeds `_format_manual_findings`. -/
def format_manual_findings (manual_results : Option (List (String × MVerdict))) :
    List ManualFinding :=
  match manual_results with
  | none => []
  | some mr =>
    if mr.isEmpty then []
    else mr.map (fun p =>
      { criteria_id := p.1
        title := p.2.title
        level := p.2.level
        status := p.2.status
        priority := p.2.priority
        confidence := p.2.confidence
        assessment := p.2.assessment
        issues := p.2.issues.getD []
        recommendations := p.2.recommendations.getD [] })

/-- Embeds `_generate_cross_references`: link each violation to the manual
criteria whose dotted id, periods stripped, occurs in one of its tags. -/
def generate_cross_references (results : AnalysisResults) : List (String × List String) :=
  let automated_results := results.automated_results.getD {}
  let manual_results := results.manual_results.getD []
  (automated_results.violations.getD []).foldl
    (fun cross_refs violation =>
      let violation_id := violation.id.getD "unknown"
      let tags := violation.tags.getD []
      let related_manual := (manual_results.map (·.1)).filter
        (fun criteria_id => tags.any (fun tag => pyIn (pyReplace criteria_id "." "") tag))
      if !related_manual.isEmpty then alSet cross_refs violation_id related_manual
      else cross_refs)
    []

/-- Embeds `_generate_detailed_findings`. -/
def generate_detailed_findings (results : AnalysisResults) : DetailedFindings :=
  { automated_findings := format_automated_findings results.automated_results
    manual_findings := format_manual_findings results.manual_results
    cross_references := generate_cross_references results }

/-- Embeds `generate_report`, the aggregation engine's entry point; `now` is the
clock reading used only as the default timestamp. -/
def generate_report (now : String) (analysis_results : AnalysisResults) : Report :=
  { meta := generate_meta_info now analysis_results
    summary := generate_summary analysis_results
    automated_results := process_automated_results analysis_results.automated_results
    manual_assessment := process_manual_results analysis_results.manual_results
    wcag_compliance := generate_wcag_compliance_summary analysis_results
    recommendations := generate_recommendations analysis_results
    detailed_findings := generate_detailed_findings analysis_results
    compliance_score := calculate_compliance_score analysis_results }

/-
The manual-verdict normalizer of `ai_evaluator.py`.  The AI provider's
reply is modelled as either syntactically invalid JSON, or a decoded JSON
object restricted to the six expected fields: `status` and `priority` as
strings, `confidence` as either a number or a value `float()` rejects,
`issues` and `recommendations` as either a list of strings or a scalar.
-/

/-- A JSON `confidence` value: either a number, or a value on which
Python's `float(...)` raises. -/
inductive ConfVal where
  | num (q : ℚ)
  | nonNum (s : String)
deriving DecidableEq, Repr

/-- Python's `float(...)` coercion on a `confidence` value; `Except.error`
models the raised `ValueError`. -/
def float_coerce : ConfVal → Except String ℚ
  | .num q => .ok q
  | .nonNum s => .error ("could not convert string to float: " ++ s)

/-- A JSON value expected to be a list of strings: `isinstance(v, list)`
either holds, or the scalar is wrapped as `[str(v)]`. -/
inductive ListVal where
  | items (l : List String)
  | scalar (s : String)
deriving DecidableEq, Repr

/-- The `isinstance(v, list)` check of `_parse_ai_response`. -/
def as_string_list : ListVal → List String
  | .items l => l
  | .scalar s => [s]

/-- A decoded AI reply object; `none` models a missing field. -/
structure RawEval where
  status : Option String := none
  confidence : Option ConfVal := none
  assessment : Option String := none
  issues : Option ListVal := none
  recommendations : Option ListVal := none
  priority : Option String := none
deriving DecidableEq, Repr

/-- The raw AI reply: invalid JSON text, or a decoded object. -/
inductive AIResponse where
  | invalidJson (raw : String)
  | decoded (e : RawEval)
deriving DecidableEq, Repr

/-- One entry of the `WCAG_CRITERIA` catalog, restricted to the fields the
evaluator reads outside of prompt construction. -/
structure CriteriaData where
  id : Option String := none
  title : String
  level : String
  requires_manual_assessment : Bool := true
deriving DecidableEq, Repr

/-- Embeds `_parse_ai_response`: fill defaults for missing fields, coerce and
validate `status` and `priority`, clamp `confidence`.  Invalid JSON yields
the local `'error'` fallback record; a `confidence` value `float()`
rejects raises (`Except.error`), to be caught by the caller. -/
def parse_ai_response (response : AIResponse) (criteria_data : CriteriaData) :
    Except String MVerdict :=
  match response with
  | .invalidJson raw =>
    .ok { status := some "error"
          confidence := some 0
          assessment := some ("Failed to parse AI response: " ++ pyTake raw 200 ++ "...")
          issues := some ["AI response parsing failed"]
          recommendations := some ["Manual review required"]
          priority := some "medium"
          level := some criteria_data.level
          title := some criteria_data.title
          criteria_id := some (criteria_data.id.getD "unknown") }
  | .decoded e =>
    let status0 := e.status.getD "warning"
    let confidence0 := e.confidence.getD (.num (1/2))
    let assessment := e.assessment.getD "Assessment not available"
    let issues0 := e.issues.getD (.items [])
    let recommendations0 := e.recommendations.getD (.items [])
    let priority0 := e.priority.getD "medium"
    let status1 := pyLower status0
    let status :=
      if status1 == "pass" || status1 == "fail" || status1 == "warning" then status1
      else "warning"
    let priority1 := pyLower priority0
    let priority :=
      if priority1 == "low" || priority1 == "medium" || priority1 == "high"
          || priority1 == "critical" then priority1
      else "medium"
    match float_coerce confidence0 with
    | .error msg => .error msg
    | .ok q =>
      .ok { status := some status
            confidence := some (max 0 (min 1 q))
            assessment := some assessment
            issues := some (as_string_list issues0)
            recommendations := some (as_string_list recommendations0)
            priority := some priority
            level := some criteria_data.level
            title := some criteria_data.title
            criteria_id := some (criteria_data.id.getD "unknown") }

/-- The per-criterion `except` fallback of `evaluate_manual_criteria`. -/
def error_verdict (msg : String) (criteria_data : CriteriaData) : MVerdict :=
  { status := some "error"
    error := some msg
    level := some criteria_data.level
    title := some criteria_data.title }

/-- Embeds `evaluate_manual_criteria`: filter the catalog by requested level and
the manual-assessment flag, evaluate each criterion, and catch any raised
exception as a per-criterion error verdict.  `responses` models the
external judgment provider's raw reply for each criterion. -/
def evaluate_manual_criteria (catalog : List (String × CriteriaData))
    (wcag_levels : List String) (responses : String → AIResponse) :
    List (String × MVerdict) :=
  let criteria_to_evaluate := catalog.filter
    (fun p => wcag_levels.contains p.2.level && p.2.requires_manual_assessment)
  criteria_to_evaluate.map (fun p =>
    (p.1, match parse_ai_response (responses p.1) p.2 with
      | .ok evaluation => evaluation
      | .error msg => error_verdict msg p.2))


deriving instance DecidableEq for Except

/-- The manual score as worded by the claim: pass fraction times 100 when
any manual verdicts exist, else 0. -/
def claimed_manual_score (results : AnalysisResults) : ℚ :=
  let mr := results.manual_results.getD []
  if mr ≠ [] then
    ((mr.countP (fun p => p.2.status == some "pass") : ℚ) / (mr.length : ℚ)) * 100
  else 0

/-- The automated score as worded by the claim: 100 when no automated
results exist, otherwise pass count over pass count plus violation count
times 100, defined as 100 when that denominator is 0. -/
def claimed_automated_score (results : AnalysisResults) : ℚ :=
  let ar := results.automated_results.getD {}
  if ar.isTruthy = false then 100
  else
    let pass_count := (ar.passes.getD []).length
    let violation_count := (ar.violations.getD []).length
    if pass_count + violation_count = 0 then 100
    else ((pass_count : ℚ) / ((pass_count : ℚ) + (violation_count : ℚ))) * 100

/-- The overall blend as worded by the claim: weighted 70/30 when both
sections are present, otherwise the present section's score.  The claim
leaves the neither-present case undefined; it is mapped to 0 here and
excluded by the theorem's hypothesis. -/
def claimed_overall (results : AnalysisResults) : ℚ :=
  if results.manual_results.getD [] ≠ [] ∧
      (results.automated_results.getD {}).isTruthy = true then
    claimed_manual_score results * (7/10) + claimed_automated_score results * (3/10)
  else if results.manual_results.getD [] ≠ [] then claimed_manual_score results
  else if (results.automated_results.getD {}).isTruthy = true then
    claimed_automated_score results
  else 0

/-- Verdicts counted at a level by the table builder: `level` defaults to
`"A"` when absent. -/
def level_total (mr : List (String × MVerdict)) (L : String) : Nat :=
  mr.countP (fun p => p.2.level.getD "A" == L)

/-- Verdicts at a level with status exactly `"pass"` (`status` defaults to
`"fail"` when absent). -/
def level_pass (mr : List (String × MVerdict)) (L : String) : Nat :=
  mr.countP (fun p => p.2.level.getD "A" == L && p.2.status.getD "fail" == "pass")

/-- Verdicts at a level with any non-`"pass"` status. -/
def level_fail (mr : List (String × MVerdict)) (L : String) : Nat :=
  mr.countP (fun p => p.2.level.getD "A" == L && !(p.2.status.getD "fail" == "pass"))

/-- The per-level compliance entry as the claim words it. -/
def claimed_level_entry (mr : List (String × MVerdict)) (L : String) : ComplianceEntry :=
  { total := level_total mr L
    pass := level_pass mr L
    fail := level_fail mr L
    compliance_rate :=
      if 0 < level_total mr L then
        pyRound1 (((level_pass mr L : ℚ) / (level_total mr L : ℚ)) * 100)
      else 0 }

/-- A concrete input whose `timestamp` key is absent. -/
def analysis_no_timestamp : AnalysisResults := { url := some "https://example.org" }

/-- A concrete input that supplies its own timestamp. -/
def analysis_with_timestamp : AnalysisResults := { timestamp := some "2024-03-04T05:06:07" }

/-- The weighted-blend scenario: 10 manual verdicts with 8 passes, and an
automated record with 5 violations and 5 passes. -/
def analysis_p5 : AnalysisResults :=
  { manual_results := some
      [("c1", { status := some "pass" }), ("c2", { status := some "pass" }),
       ("c3", { status := some "pass" }), ("c4", { status := some "pass" }),
       ("c5", { status := some "pass" }), ("c6", { status := some "pass" }),
       ("c7", { status := some "pass" }), ("c8", { status := some "pass" }),
       ("c9", { status := some "fail" }), ("c10", { status := some "warning" })]
    automated_results := some
      { violations := some [{}, {}, {}, {}, {}]
        passes := some [(), (), (), (), ()] } }

/-- The priority-order scenario: one low-priority manual failure and one
critical-impact automated violation. -/
def analysis_p6 : AnalysisResults :=
  { manual_results := some
      [("1.4.3", { status := some "fail", priority := some "low",
                   title := some "Contrast (Minimum)" })]
    automated_results := some
      { violations := some [{ id := some "image-alt", impact := some "critical" }] } }

/-- The level-table scenario: three AA verdicts, two passing and one failing. -/
def analysis_p8 : AnalysisResults :=
  { manual_results := some
      [("1.4.3", { status := some "pass", level := some "AA" }),
       ("1.4.5", { status := some "pass", level := some "AA" }),
       ("2.4.6", { status := some "fail", level := some "AA" })] }

/-- A ten-criterion catalog for the resilience scenario. -/
def catalog_p7 : List (String × CriteriaData) :=
  [("1.1.1", { id := some "1.1.1", title := "Non-text Content", level := "A" }),
   ("1.2.1", { id := some "1.2.1", title := "Audio-only and Video-only (Prerecorded)",
               level := "A" }),
   ("1.2.2", { id := some "1.2.2", title := "Captions (Prerecorded)", level := "A" }),
   ("1.3.1", { id := some "1.3.1", title := "Info and Relationships", level := "A" }),
   ("1.3.2", { id := some "1.3.2", title := "Meaningful Sequence", level := "A" }),
   ("1.4.3", { id := some "1.4.3", title := "Contrast (Minimum)", level := "AA" }),
   ("1.4.5", { id := some "1.4.5", title := "Images of Text", level := "AA" }),
   ("2.4.6", { id := some "2.4.6", title := "Headings and Labels", level := "AA" }),
   ("2.5.3", { id := some "2.5.3", title := "Label in Name", level := "A" }),
   ("3.1.5", { id := some "3.1.5", title := "Reading Level", level := "AAA" })]

/-- The judgment provider replies modelled for the resilience scenario:
one criterion comes back with a non-numeric confidence, all others are
valid passing verdicts. -/
def responses_p7 (k : String) : AIResponse :=
  if k == "2.4.6" then .decoded { confidence := some (.nonNum "very confident") }
  else .decoded { status := some "pass", confidence := some (.num (9/10)) }

/-- The message of the error raised on the non-numeric confidence. -/
def bad_msg_p7 : String := "could not convert string to float: very confident"

/-- Catalog data of criterion 1.1.1. -/
def criteria_111 : CriteriaData :=
  { id := some "1.1.1", title := "Non-text Content", level := "A" }

/-- Catalog data of criterion 2.4.6, the one whose reply is malformed. -/
def criteria_246 : CriteriaData :=
  { id := some "2.4.6", title := "Headings and Labels", level := "AA" }

/-- A decoded reply with an upper-case status, an out-of-range numeric
confidence, a scalar issues value and an invalid priority. -/
def raw_eval_p7 : RawEval :=
  { status := some "PASS", confidence := some (.num (3/2)),
    issues := some (.scalar "single issue"), priority := some "Urgent" }

/-- The verdict the normalizer produces for criterion 1.1.1 in the
resilience scenario. -/
def verdict_111_p7 : MVerdict :=
  { status := some "pass", level := some "A", priority := some "medium",
    title := some "Non-text Content", assessment := some "Assessment not available",
    confidence := some (max 0 (min 1 (9/10))), issues := some [],
    recommendations := some [], criteria_id := some "1.1.1", error := none }

theorem pyRound_nonneg (q : ℚ) (h : 0 ≤ q) : 0 ≤ pyRound q := by
  simp only [pyRound]
  have hf : (0:ℤ) ≤ ⌊q⌋ := Int.floor_nonneg.mpr h
  split_ifs <;> omega

theorem pyRound_le_hundred (q : ℚ) (h : q ≤ 100) : pyRound q ≤ 100 := by
  simp only [pyRound]
  have hf : ⌊q⌋ ≤ 100 := by
    have h1 : ⌊q⌋ ≤ ⌊(100 : ℚ)⌋ := Int.floor_mono h
    simpa using h1
  have hfl : (⌊q⌋ : ℚ) ≤ q := Int.floor_le q
  split_ifs with h1 h2 h3
  · exact hf
  · have hq : (⌊q⌋ : ℚ) < (100 : ℚ) := by linarith
    have : ⌊q⌋ < (100 : ℤ) := by exact_mod_cast hq
    omega
  · exact hf
  · have hq : (⌊q⌋ : ℚ) < (100 : ℚ) := by
      have ht : q - (⌊q⌋ : ℚ) = 1/2 := le_antisymm (not_lt.mp h2) (not_lt.mp h1)
      linarith
    have : ⌊q⌋ < (100 : ℤ) := by exact_mod_cast hq
    omega

theorem pyRound_int (n : ℤ) : pyRound (n : ℚ) = n := by
  simp [pyRound]

theorem ratio_score_bounds (c n : ℕ) (h : c ≤ n) :
    0 ≤ ((c : ℚ) / (n : ℚ)) * 100 ∧ ((c : ℚ) / (n : ℚ)) * 100 ≤ 100 := by
  rcases Nat.eq_zero_or_pos n with hn | hn
  · subst hn
    interval_cases c
    norm_num
  · have hn' : (0 : ℚ) < n := by exact_mod_cast hn
    constructor
    · positivity
    · have h1 : (c : ℚ) / (n : ℚ) ≤ 1 := by
        rw [div_le_one hn']
        exact_mod_cast h
      nlinarith

theorem manual_score_calc_bounds (l : List (String × MVerdict)) :
    0 ≤ manual_score_calc l ∧ manual_score_calc l ≤ 100 := by
  simp only [manual_score_calc]
  split_ifs with h1 h2
  · exact ratio_score_bounds _ _ (List.countP_le_length _)
  · norm_num
  · norm_num

theorem automated_score_calc_bounds (a : AutoResults) :
    0 ≤ automated_score_calc a ∧ automated_score_calc a ≤ 100 := by
  simp only [automated_score_calc]
  split_ifs with h1 h2
  · have hb := ratio_score_bounds (a.passes.getD []).length
      ((a.violations.getD []).length + (a.passes.getD []).length) (Nat.le_add_left _ _)
    rw [Nat.cast_add] at hb
    exact hb
  · norm_num
  · norm_num

theorem manual_score_agrees (results : AnalysisResults) :
    manual_score_calc (results.manual_results.getD []) = claimed_manual_score results := by
  simp only [manual_score_calc, claimed_manual_score]
  by_cases hm : results.manual_results.getD [] = []
  · simp [hm]
  · have hlen : 0 < (results.manual_results.getD []).length := List.length_pos.mpr hm
    simp [hm, List.isEmpty_iff, hlen]

theorem automated_score_agrees (results : AnalysisResults) :
    automated_score_calc (results.automated_results.getD {}) =
      claimed_automated_score results := by
  simp only [automated_score_calc, claimed_automated_score]
  by_cases ha : (results.automated_results.getD {}).isTruthy = true
  · simp only [ha, Bool.true_eq_false, if_true, if_false]
    by_cases h0 : ((results.automated_results.getD {}).passes.getD []).length
        + ((results.automated_results.getD {}).violations.getD []).length = 0
    · have hp : ((results.automated_results.getD {}).passes.getD []).length = 0 := by omega
      have hv : ((results.automated_results.getD {}).violations.getD []).length = 0 := by omega
      simp [h0, hp, hv]
    · have hpos : (0 : ℚ) <
          (((results.automated_results.getD {}).violations.getD []).length : ℚ)
          + (((results.automated_results.getD {}).passes.getD []).length : ℚ) := by
        have h1 : 0 < ((results.automated_results.getD {}).violations.getD []).length
            + ((results.automated_results.getD {}).passes.getD []).length := by omega
        exact_mod_cast h1
      rw [if_pos hpos, if_neg h0, add_comm
        (((results.automated_results.getD {}).passes.getD []).length : ℚ)]
  · simp only [Bool.not_eq_true] at ha
    simp [ha]

theorem opt_singleton_length {c : Prop} [Decidable c] (x : String) :
    (if c then [x] else []).length ≤ 1 := by
  split <;> simp

theorem count_segment_eq {α : Type} (l : List α) (p : α → Bool) (s : String) :
    (if !(l.filter p).isEmpty then [toString (l.filter p).length ++ s] else [])
      = (if 0 < l.countP p then [toString (l.countP p) ++ s] else []) := by
  rw [List.countP_eq_length_filter]
  rcases hf : l.filter p with _ | ⟨a, t⟩ <;> simp [hf]

theorem compliance_step_A (c : WcagCompliance) (p : String × MVerdict) :
    (compliance_step c p).A.total = c.A.total
        + (if (p.2.level.getD "A" == "A") = true then 1 else 0) ∧
    (compliance_step c p).A.pass = c.A.pass
        + (if ((p.2.level.getD "A" == "A") && (p.2.status.getD "fail" == "pass")) = true
           then 1 else 0) ∧
    (compliance_step c p).A.fail = c.A.fail
        + (if ((p.2.level.getD "A" == "A") && !(p.2.status.getD "fail" == "pass")) = true
           then 1 else 0) ∧
    (compliance_step c p).A.compliance_rate = c.A.compliance_rate := by
  simp only [compliance_step, compliance_bump]
  by_cases hl : (p.2.level.getD "A" == "A") = true <;>
    by_cases hs : (p.2.status.getD "fail" == "pass") = true <;>
      simp_all <;> split_ifs <;> simp_all

theorem compliance_step_AA (c : WcagCompliance) (p : String × MVerdict) :
    (compliance_step c p).AA.total = c.AA.total
        + (if (p.2.level.getD "A" == "AA") = true then 1 else 0) ∧
    (compliance_step c p).AA.pass = c.AA.pass
        + (if ((p.2.level.getD "A" == "AA") && (p.2.status.getD "fail" == "pass")) = true
           then 1 else 0) ∧
    (compliance_step c p).AA.fail = c.AA.fail
        + (if ((p.2.level.getD "A" == "AA") && !(p.2.status.getD "fail" == "pass")) = true
           then 1 else 0) ∧
    (compliance_step c p).AA.compliance_rate = c.AA.compliance_rate := by
  simp only [compliance_step, compliance_bump]
  by_cases hl : (p.2.level.getD "A" == "AA") = true <;>
    by_cases hs : (p.2.status.getD "fail" == "pass") = true <;>
      simp_all <;> split_ifs <;> simp_all

theorem compliance_step_AAA (c : WcagCompliance) (p : String × MVerdict) :
    (compliance_step c p).AAA.total = c.AAA.total
        + (if (p.2.level.getD "A" == "AAA") = true then 1 else 0) ∧
    (compliance_step c p).AAA.pass = c.AAA.pass
        + (if ((p.2.level.getD "A" == "AAA") && (p.2.status.getD "fail" == "pass")) = true
           then 1 else 0) ∧
    (compliance_step c p).AAA.fail = c.AAA.fail
        + (if ((p.2.level.getD "A" == "AAA") && !(p.2.status.getD "fail" == "pass")) = true
           then 1 else 0) ∧
    (compliance_step c p).AAA.compliance_rate = c.AAA.compliance_rate := by
  simp only [compliance_step, compliance_bump]
  by_cases hl : (p.2.level.getD "A" == "AAA") = true <;>
    by_cases hs : (p.2.status.getD "fail" == "pass") = true <;>
      simp_all <;> split_ifs <;> simp_all

theorem compliance_fold_A (l : List (String × MVerdict)) (c : WcagCompliance) :
    (l.foldl compliance_step c).A.total = c.A.total + level_total l "A" ∧
    (l.foldl compliance_step c).A.pass = c.A.pass + level_pass l "A" ∧
    (l.foldl compliance_step c).A.fail = c.A.fail + level_fail l "A" ∧
    (l.foldl compliance_step c).A.compliance_rate = c.A.compliance_rate := by
  induction l generalizing c with
  | nil => simp [level_total, level_pass, level_fail]
  | cons p t ih =>
    simp only [List.foldl_cons, level_total, level_pass, level_fail, List.countP_cons]
    obtain ⟨h1, h2, h3, h4⟩ := ih (compliance_step c p)
    obtain ⟨s1, s2, s3, s4⟩ := compliance_step_A c p
    simp only [level_total, level_pass, level_fail] at h1 h2 h3
    refine ⟨?_, ?_, ?_, h4.trans s4⟩
    · rw [h1, s1]; ring
    · rw [h2, s2]; ring
    · rw [h3, s3]; ring

theorem compliance_fold_AA (l : List (String × MVerdict)) (c : WcagCompliance) :
    (l.foldl compliance_step c).AA.total = c.AA.total + level_total l "AA" ∧
    (l.foldl compliance_step c).AA.pass = c.AA.pass + level_pass l "AA" ∧
    (l.foldl compliance_step c).AA.fail = c.AA.fail + level_fail l "AA" ∧
    (l.foldl compliance_step c).AA.compliance_rate = c.AA.compliance_rate := by
  induction l generalizing c with
  | nil => simp [level_total, level_pass, level_fail]
  | cons p t ih =>
    simp only [List.foldl_cons, level_total, level_pass, level_fail, List.countP_cons]
    obtain ⟨h1, h2, h3, h4⟩ := ih (compliance_step c p)
    obtain ⟨s1, s2, s3, s4⟩ := compliance_step_AA c p
    simp only [level_total, level_pass, level_fail] at h1 h2 h3
    refine ⟨?_, ?_, ?_, h4.trans s4⟩
    · rw [h1, s1]; ring
    · rw [h2, s2]; ring
    · rw [h3, s3]; ring

theorem compliance_fold_AAA (l : List (String × MVerdict)) (c : WcagCompliance) :
    (l.foldl compliance_step c).AAA.total = c.AAA.total + level_total l "AAA" ∧
    (l.foldl compliance_step c).AAA.pass = c.AAA.pass + level_pass l "AAA" ∧
    (l.foldl compliance_step c).AAA.fail = c.AAA.fail + level_fail l "AAA" ∧
    (l.foldl compliance_step c).AAA.compliance_rate = c.AAA.compliance_rate := by
  induction l generalizing c with
  | nil => simp [level_total, level_pass, level_fail]
  | cons p t ih =>
    simp only [List.foldl_cons, level_total, level_pass, level_fail, List.countP_cons]
    obtain ⟨h1, h2, h3, h4⟩ := ih (compliance_step c p)
    obtain ⟨s1, s2, s3, s4⟩ := compliance_step_AAA c p
    simp only [level_total, level_pass, level_fail] at h1 h2 h3
    refine ⟨?_, ?_, ?_, h4.trans s4⟩
    · rw [h1, s1]; ring
    · rw [h2, s2]; ring
    · rw [h3, s3]; ring

theorem wcag_compliance_characterization (results : AnalysisResults) :
    generate_wcag_compliance_summary results =
      { A := claimed_level_entry (results.manual_results.getD []) "A"
        AA := claimed_level_entry (results.manual_results.getD []) "AA"
        AAA := claimed_level_entry (results.manual_results.getD []) "AAA" } := by
  obtain ⟨a1, a2, a3, a4⟩ := compliance_fold_A (results.manual_results.getD [])
    ⟨⟨0, 0, 0, 0⟩, ⟨0, 0, 0, 0⟩, ⟨0, 0, 0, 0⟩⟩
  obtain ⟨b1, b2, b3, b4⟩ := compliance_fold_AA (results.manual_results.getD [])
    ⟨⟨0, 0, 0, 0⟩, ⟨0, 0, 0, 0⟩, ⟨0, 0, 0, 0⟩⟩
  obtain ⟨c1, c2, c3, c4⟩ := compliance_fold_AAA (results.manual_results.getD [])
    ⟨⟨0, 0, 0, 0⟩, ⟨0, 0, 0, 0⟩, ⟨0, 0, 0, 0⟩⟩
  have eA : (List.foldl compliance_step
      ⟨⟨0, 0, 0, 0⟩, ⟨0, 0, 0, 0⟩, ⟨0, 0, 0, 0⟩⟩ (results.manual_results.getD [])).A
      = ⟨level_total (results.manual_results.getD []) "A",
         level_pass (results.manual_results.getD []) "A",
         level_fail (results.manual_results.getD []) "A", 0⟩ := by
    ext <;> simp_all
  have eB : (List.foldl compliance_step
      ⟨⟨0, 0, 0, 0⟩, ⟨0, 0, 0, 0⟩, ⟨0, 0, 0, 0⟩⟩ (results.manual_results.getD [])).AA
      = ⟨level_total (results.manual_results.getD []) "AA",
         level_pass (results.manual_results.getD []) "AA",
         level_fail (results.manual_results.getD []) "AA", 0⟩ := by
    ext <;> simp_all
  have eC : (List.foldl compliance_step
      ⟨⟨0, 0, 0, 0⟩, ⟨0, 0, 0, 0⟩, ⟨0, 0, 0, 0⟩⟩ (results.manual_results.getD [])).AAA
      = ⟨level_total (results.manual_results.getD []) "AAA",
         level_pass (results.manual_results.getD []) "AAA",
         level_fail (results.manual_results.getD []) "AAA", 0⟩ := by
    ext <;> simp_all
  simp only [generate_wcag_compliance_summary, WcagCompliance.mk.injEq, eA, eB, eC]
  refine ⟨?_, ?_, ?_⟩ <;>
    simp only [compliance_finalize, claimed_level_entry] <;>
    split_ifs <;>
    simp_all

theorem priority_order_key_le_three (p : String) : priority_order_key p ≤ 3 := by
  simp only [priority_order_key]
  split_ifs <;> omega

theorem pairwise_filter_const {α : Type} (l : List α) (p : α → Bool) (R : α → α → Prop)
    (h : ∀ a b, p a = true → p b = true → R a b) : (l.filter p).Pairwise R := by
  induction l with
  | nil => simp
  | cons x t ih =>
    by_cases hx : p x = true
    · rw [List.filter_cons_of_pos hx]
      exact List.Pairwise.cons (fun b hb => h x b hx (List.of_mem_filter hb)) ih
    · rw [List.filter_cons_of_neg hx]
      exact ih

theorem key_of_mem_filter {l : List Recommendation} {t : Nat} {r : Recommendation}
    (h : r ∈ l.filter (fun r => priority_order_key r.priority == t)) :
    priority_order_key r.priority = t := by
  have := List.of_mem_filter h
  simpa using this

theorem sorted_stable_sort (l : List Recommendation) :
    (stable_sort_by_priority l).Pairwise
      (fun a b => priority_order_key a.priority ≤ priority_order_key b.priority) := by
  unfold stable_sort_by_priority
  have hp : ∀ t : Nat, (l.filter (fun r => priority_order_key r.priority == t)).Pairwise
      (fun a b => priority_order_key a.priority ≤ priority_order_key b.priority) := by
    intro t
    exact pairwise_filter_const _ _ _ (fun a b ha hb => by
      simp only [beq_iff_eq] at ha hb
      omega)
  refine List.pairwise_append.mpr ⟨List.pairwise_append.mpr
    ⟨List.pairwise_append.mpr ⟨hp 0, hp 1, ?_⟩, hp 2, ?_⟩, hp 3, ?_⟩
  · intro a ha b hb
    have h1 := key_of_mem_filter ha
    have h2 := key_of_mem_filter hb
    omega
  · intro a ha b hb
    have h2 := key_of_mem_filter hb
    rcases List.mem_append.mp ha with ha | ha <;>
      [skip; skip] <;>
      first
        | (have h1 := key_of_mem_filter ha; omega)
  · intro a ha b hb
    have h2 := key_of_mem_filter hb
    rcases List.mem_append.mp ha with ha | ha
    · rcases List.mem_append.mp ha with ha | ha <;>
        (have h1 := key_of_mem_filter ha; omega)
    · have h1 := key_of_mem_filter ha
      omega

theorem filter_stable_sort (l : List Recommendation) (t : Nat) :
    (stable_sort_by_priority l).filter (fun r => priority_order_key r.priority == t)
      = l.filter (fun r => priority_order_key r.priority == t) := by
  unfold stable_sort_by_priority
  simp only [List.filter_append, List.filter_filter]
  have hff : ∀ i j : Nat, i ≠ j →
      (l.filter (fun a => (priority_order_key a.priority == i)
        && (priority_order_key a.priority == j))) = [] := by
    intro i j hij
    refine List.filter_eq_nil_iff.mpr ?_
    intro a _
    simp only [Bool.and_eq_true, beq_iff_eq]
    rintro ⟨rfl, rfl⟩
    exact hij rfl
  have hsame : ∀ i : Nat,
      (l.filter (fun a => (priority_order_key a.priority == i)
        && (priority_order_key a.priority == i)))
      = l.filter (fun a => priority_order_key a.priority == i) := by
    intro i
    exact List.filter_congr (fun a _ => by simp)
  rcases Nat.lt_or_ge t 4 with h4 | h4
  · interval_cases t
    · rw [hsame 0, hff 0 1 (by omega), hff 0 2 (by omega), hff 0 3 (by omega)]
      simp
    · rw [hff 1 0 (by omega), hsame 1, hff 1 2 (by omega), hff 1 3 (by omega)]
      simp
    · rw [hff 2 0 (by omega), hff 2 1 (by omega), hsame 2, hff 2 3 (by omega)]
      simp
    · rw [hff 3 0 (by omega), hff 3 1 (by omega), hff 3 2 (by omega), hsame 3]
      simp
  · rw [hff t 0 (by omega), hff t 1 (by omega), hff t 2 (by omega), hff t 3 (by omega)]
    have hr : l.filter (fun a => priority_order_key a.priority == t) = [] := by
      refine List.filter_eq_nil_iff.mpr ?_
      intro a _
      have := priority_order_key_le_three a.priority
      simp only [beq_iff_eq]
      omega
    simp [hr]

theorem perm_stable_sort (l : List Recommendation) : (stable_sort_by_priority l).Perm l := by
  induction l with
  | nil => simp [stable_sort_by_priority]
  | cons x t ih =>
    have ih2 : (List.filter (fun r => priority_order_key r.priority == 0) t
        ++ (List.filter (fun r => priority_order_key r.priority == 1) t
          ++ (List.filter (fun r => priority_order_key r.priority == 2) t
            ++ List.filter (fun r => priority_order_key r.priority == 3) t))).Perm t := by
      simpa [stable_sort_by_priority, List.append_assoc] using ih
    have h03 : priority_order_key x.priority = 0 ∨ priority_order_key x.priority = 1
        ∨ priority_order_key x.priority = 2 ∨ priority_order_key x.priority = 3 := by
      have := priority_order_key_le_three x.priority
      omega
    rcases h03 with h | h | h | h
    · simp only [stable_sort_by_priority, List.filter_cons, h]
      simp [List.append_assoc]
      exact ih2
    · simp only [stable_sort_by_priority, List.filter_cons, h]
      simp [List.append_assoc]
      exact List.perm_middle.trans (ih2.cons x)
    · simp only [stable_sort_by_priority, List.filter_cons, h]
      simp [List.append_assoc]
      exact (List.Perm.append_left _ List.perm_middle).trans
        (List.perm_middle.trans (ih2.cons x))
    · simp only [stable_sort_by_priority, List.filter_cons, h]
      simp [List.append_assoc]
      exact (List.Perm.append_left _ ((List.Perm.append_left _ List.perm_middle).trans
        List.perm_middle)).trans (List.perm_middle.trans (ih2.cons x))

theorem filterMap_length_countP {α β : Type} (g : α → Option β) (p : α → Bool)
    (hg : ∀ a, (g a).isSome = p a) (l : List α) :
    (l.filterMap g).length = l.countP p := by
  induction l with
  | nil => simp
  | cons a t ih =>
    rw [List.countP_cons]
    have hpa := hg a
    cases hga : g a with
    | none =>
      rw [hga] at hpa
      simp only [Option.isSome_none] at hpa
      rw [List.filterMap_cons_none hga, ih, ← hpa]
      simp
    | some b =>
      rw [hga] at hpa
      simp only [Option.isSome_some] at hpa
      rw [List.filterMap_cons_some hga, List.length_cons, ih, ← hpa]
      simp

theorem manual_recommendations_count (results : AnalysisResults) :
    (manual_recommendations results).length
      = (results.manual_results.getD []).countP
          (fun p => p.2.status == some "fail" || p.2.status == some "warning") := by
  simp only [manual_recommendations]
  refine filterMap_length_countP _ _ (fun a => ?_) _
  by_cases h : (a.2.status == some "fail" || a.2.status == some "warning") = true
  · simp [h]
  · simp only [if_neg h, Option.isSome_none]
    exact (Bool.not_eq_true _).mp h ▸ rfl

/-- C1: for every input with at least one section present, the compliance
score of the generated report equals `round(overall)`, where `overall` is
the weighted blend of the claim's manual and automated scores
(`claimed_overall` transcribes the claim's scoring algorithm). -/
theorem c1_score_formula (now : String) (results : AnalysisResults)
    (h : results.manual_results.getD [] ≠ [] ∨
      (results.automated_results.getD {}).isTruthy = true) :
    (generate_report now results).compliance_score = pyRound (claimed_overall results) := by
  show calculate_compliance_score results = _
  simp only [calculate_compliance_score, claimed_overall,
    manual_score_agrees, automated_score_agrees]
  by_cases hm : results.manual_results.getD [] = [] <;>
    by_cases ha : (results.automated_results.getD {}).isTruthy = true
  · simp [hm, ha, List.isEmpty_iff]
  · rcases h with h1 | h1
    · exact absurd hm h1
    · exact absurd h1 ha
  · simp [hm, ha, List.isEmpty_iff]
  · simp [hm, ha, List.isEmpty_iff]

/-- C1 witness: with 8 of 10 manual verdicts passing and 5 automated
passes against 5 violations, the claimed formula applies and yields 71. -/
theorem c1_witness :
    (generate_report "2024-01-01T00:00:00" analysis_p5).compliance_score
        = pyRound (claimed_overall analysis_p5) ∧
    pyRound (claimed_overall analysis_p5) = 71 := by
  constructor
  · exact c1_score_formula "2024-01-01T00:00:00" analysis_p5 (Or.inl (by decide))
  · have hc : (analysis_p5.manual_results.getD []).countP
        (fun p => p.2.status == some "pass") = 8 := by decide
    have hlen : (analysis_p5.manual_results.getD []).length = 10 := by decide
    have hp : ((analysis_p5.automated_results.getD {}).passes.getD []).length = 5 := by decide
    have hv : ((analysis_p5.automated_results.getD {}).violations.getD []).length = 5 := by
      decide
    have hms : claimed_manual_score analysis_p5 = 80 := by
      rw [claimed_manual_score]
      rw [if_pos (by decide : analysis_p5.manual_results.getD [] ≠ [])]
      rw [hc, hlen]
      norm_num
    have has : claimed_automated_score analysis_p5 = 50 := by
      rw [claimed_automated_score]
      rw [if_neg (by decide :
        ¬(analysis_p5.automated_results.getD {}).isTruthy = false)]
      rw [if_neg (by decide : ¬(((analysis_p5.automated_results.getD {}).passes.getD []).length
        + ((analysis_p5.automated_results.getD {}).violations.getD []).length = 0))]
      rw [hp, hv]
      norm_num
    have hov : claimed_overall analysis_p5 = 71 := by
      rw [claimed_overall]
      rw [if_pos ⟨(by decide : analysis_p5.manual_results.getD [] ≠ []),
        (by decide : (analysis_p5.automated_results.getD {}).isTruthy = true)⟩]
      rw [hms, has]
      norm_num
    rw [hov]
    have h71 : ((71 : ℤ) : ℚ) = (71 : ℚ) := by norm_num
    rw [← h71, pyRound_int]

/-- C2: for all inputs, the compliance score of the generated report is an
integer (it lives in ℤ by construction) between 0 and 100. -/
theorem c2_score_bounds (now : String) (results : AnalysisResults) :
    0 ≤ (generate_report now results).compliance_score ∧
    (generate_report now results).compliance_score ≤ 100 := by
  show 0 ≤ calculate_compliance_score results ∧ calculate_compliance_score results ≤ 100
  simp only [calculate_compliance_score]
  obtain ⟨hm0, hm1⟩ := manual_score_calc_bounds (results.manual_results.getD [])
  obtain ⟨ha0, ha1⟩ := automated_score_calc_bounds (results.automated_results.getD {})
  split_ifs with h0 h1 h2
  · norm_num
  · exact ⟨pyRound_nonneg _ (by linarith), pyRound_le_hundred _ (by linarith)⟩
  · exact ⟨pyRound_nonneg _ hm0, pyRound_le_hundred _ hm1⟩
  · exact ⟨pyRound_nonneg _ ha0, pyRound_le_hundred _ ha1⟩

/-- C3: when both result streams are absent, the report has compliance
score 0, overall status "Poor", and both processed sections report
`available = false`. -/
theorem c3_empty_input (now : String) (results : AnalysisResults)
    (ha : results.automated_results = none) (hm : results.manual_results = none) :
    (generate_report now results).compliance_score = 0 ∧
    (generate_report now results).summary.overall_status = "Poor" ∧
    (generate_report now results).automated_results.availableFlag = false ∧
    (generate_report now results).manual_assessment.availableFlag = false := by
  simp [generate_report, generate_summary, determine_overall_status,
        calculate_compliance_score, process_automated_results, process_manual_results,
        ha, hm, AutoResults.isTruthy, ProcessedAuto.availableFlag, ProcessedManual.availableFlag]

/-- C3 witness: the empty analysis input instantiates the claim. -/
theorem c3_witness :
    (generate_report "2024-01-01T00:00:00" {}).compliance_score = 0 ∧
    (generate_report "2024-01-01T00:00:00" {}).summary.overall_status = "Poor" ∧
    (generate_report "2024-01-01T00:00:00" {}).automated_results.availableFlag = false ∧
    (generate_report "2024-01-01T00:00:00" {}).manual_assessment.availableFlag = false :=
  c3_empty_input "2024-01-01T00:00:00" {} rfl rfl

/-- C4: the recommendation list is a permutation of one automated entry
per violation followed by one manual entry per fail/warning verdict; the
automated priorities come from the fixed impact table; the list is sorted
by priority tier (critical < high < medium < low, unknown as medium) and
the sort is stable, so within a tier automated entries in scan order
precede manual entries in catalog order; in the concrete scenario the
critical automated entry precedes the low manual entry. -/
theorem c4_recommendation_list (now : String) (results : AnalysisResults) :
    ((generate_report now results).recommendations).Perm
        (automated_recommendations results ++ manual_recommendations results) ∧
    (automated_recommendations results).length
        = ((results.automated_results.getD {}).violations.getD []).length ∧
    (manual_recommendations results).length
        = (results.manual_results.getD []).countP
            (fun p => p.2.status == some "fail" || p.2.status == some "warning") ∧
    (∀ s : String, map_impact_to_priority s =
        if s = "critical" then "critical"
        else if s = "serious" then "high"
        else if s = "moderate" then "medium"
        else if s = "minor" then "low"
        else "medium") ∧
    ((generate_report now results).recommendations).Pairwise
        (fun a b => priority_order_key a.priority ≤ priority_order_key b.priority) ∧
    (∀ t : Nat, ((generate_report now results).recommendations).filter
          (fun r => priority_order_key r.priority == t)
        = (automated_recommendations results).filter
            (fun r => priority_order_key r.priority == t)
          ++ (manual_recommendations results).filter
            (fun r => priority_order_key r.priority == t)) ∧
    ((generate_report "2024-01-01T00:00:00" analysis_p6).recommendations.map
        (fun r => (r.recType, r.priority)))
      = [("automated", "critical"), ("manual", "low")] := by
  refine ⟨?_, ?_, manual_recommendations_count results, ?_, ?_, ?_, ?_⟩
  · exact perm_stable_sort _
  · simp [automated_recommendations]
  · intro s
    simp only [map_impact_to_priority, beq_iff_eq]
  · exact sorted_stable_sort _
  · intro t
    show (stable_sort_by_priority _).filter _ = _
    rw [filter_stable_sort, List.filter_append]
  · decide

/-- C5: each per-level compliance entry counts exactly the manual verdicts
at that level, with only status "pass" counted as pass, everything else as
fail, and rate `round(pass/total*100, 1)` (0 when the level is empty);
automated findings never feed the table (the characterization depends only
on `manual_results`); 3 AA verdicts with 2 passes give {3, 2, 1, 66.7}. -/
theorem c5_level_table (now : String) (results : AnalysisResults) :
    ((generate_report now results).wcag_compliance.A
        = claimed_level_entry (results.manual_results.getD []) "A" ∧
      (generate_report now results).wcag_compliance.AA
        = claimed_level_entry (results.manual_results.getD []) "AA" ∧
      (generate_report now results).wcag_compliance.AAA
        = claimed_level_entry (results.manual_results.getD []) "AAA") ∧
    (generate_report "2024-01-01T00:00:00" analysis_p8).wcag_compliance.AA
        = ⟨3, 2, 1, 667/10⟩ := by
  have h := wcag_compliance_characterization results
  have h8 := wcag_compliance_characterization analysis_p8
  refine ⟨⟨?_, ?_, ?_⟩, ?_⟩
  · show (generate_wcag_compliance_summary results).A = _
    rw [h]
  · show (generate_wcag_compliance_summary results).AA = _
    rw [h]
  · show (generate_wcag_compliance_summary results).AAA = _
    rw [h]
  · show (generate_wcag_compliance_summary analysis_p8).AA = _
    rw [h8]
    have ht : level_total (analysis_p8.manual_results.getD []) "AA" = 3 := by decide
    have hp : level_pass (analysis_p8.manual_results.getD []) "AA" = 2 := by decide
    have hf : level_fail (analysis_p8.manual_results.getD []) "AA" = 1 := by decide
    simp only [claimed_level_entry, ht, hp, hf]
    rw [if_pos (by norm_num)]
    simp only [ComplianceEntry.mk.injEq, true_and]
    norm_num [pyRound1, pyRound]

/-- C6: the key-findings list has at most 5 strings and is exactly the
fixed-precedence concatenation: critical-automated count when positive,
then high-priority-manual count when positive, then the positive string
exactly when neither applies, then the image-accessibility warning when
some verdict under criterion 1.1.1 failed. -/
theorem c6_key_findings (now : String) (results : AnalysisResults) :
    (generate_report now results).summary.key_findings.length ≤ 5 ∧
    (generate_report now results).summary.key_findings =
      (if 0 < ((results.automated_results.getD {}).violations.getD []).countP
            (fun v => v.impact == some "critical") then
        [toString (((results.automated_results.getD {}).violations.getD []).countP
            (fun v => v.impact == some "critical"))
          ++ " critical accessibility violations found"]
       else [])
      ++ (if 0 < ((results.manual_results.getD []).map (·.2)).countP
            (fun r => r.priority == some "high") then
        [toString (((results.manual_results.getD []).map (·.2)).countP
            (fun r => r.priority == some "high"))
          ++ " high-priority WCAG compliance issues"]
       else [])
      ++ (if ((results.automated_results.getD {}).violations.getD []).countP
              (fun v => v.impact == some "critical") = 0
            ∧ ((results.manual_results.getD []).map (·.2)).countP
              (fun r => r.priority == some "high") = 0 then
        ["No critical accessibility issues detected"]
       else [])
      ++ (if ∃ r ∈ (results.manual_results.getD []).map (·.2),
            (pyIn "1.1.1" (r.criteria_id.getD "") && r.status == some "fail") = true then
        ["Image accessibility needs attention"]
       else []) := by
  have key : (generate_report now results).summary.key_findings
      = extract_key_findings results := rfl
  constructor
  · rw [key]
    simp only [extract_key_findings, List.length_take]
    omega
  · rw [key]
    simp only [extract_key_findings]
    rw [List.take_of_length_le]
    · rw [count_segment_eq, count_segment_eq]
      refine congrArg₂ (· ++ ·) (congrArg₂ (· ++ ·) rfl (if_congr ?_ rfl rfl))
        (if_congr ?_ rfl rfl)
      · simp [List.isEmpty_iff, List.countP_eq_length_filter, List.length_eq_zero]
      · exact List.countP_pos_iff
    · have h1 := opt_singleton_length (c := (!(((results.automated_results.getD
          {}).violations.getD []).filter (fun v => v.impact == some "critical")).isEmpty) = true)
        (toString (((results.automated_results.getD {}).violations.getD []).filter
          (fun v => v.impact == some "critical")).length
          ++ " critical accessibility violations found")
      have h2 := opt_singleton_length (c := (!(((results.manual_results.getD []).map
          (·.2)).filter (fun r => r.priority == some "high")).isEmpty) = true)
        (toString (((results.manual_results.getD []).map (·.2)).filter
          (fun r => r.priority == some "high")).length
          ++ " high-priority WCAG compliance issues")
      simp only [List.length_append]
      have h3 : ∀ {c : Prop} [Decidable c] (x : String),
          (if c then [x] else []).length ≤ 1 := fun {c} _ x => opt_singleton_length x
      have h4 := h3 (c := (((((results.automated_results.getD {}).violations.getD
          []).filter (fun v => v.impact == some "critical")).isEmpty
          && (((results.manual_results.getD []).map (·.2)).filter
            (fun r => r.priority == some "high")).isEmpty)) = true)
        "No critical accessibility issues detected"
      have h5 := h3 (c := (0 < ((results.manual_results.getD []).map (·.2)).countP
          (fun r => pyIn "1.1.1" (r.criteria_id.getD "") && r.status == some "fail")))
        "Image accessibility needs attention"
      omega

/-- C7: for every decoded verdict record whose confidence coerces to a
number, the normalizer fills every missing field with its default
(status "warning", confidence 0.5, placeholder assessment, empty lists,
priority "medium" — all visible through the `getD` defaults in the
produced record), lower-cases and validates status and priority against
their enumerations coercing invalid values to "warning" and "medium",
and clamps confidence into [0, 1]. -/
theorem c7_verdict_normalization (e : RawEval) (criteria_data : CriteriaData) (q : ℚ)
    (hq : float_coerce (e.confidence.getD (.num (1/2))) = .ok q) :
    parse_ai_response (.decoded e) criteria_data = .ok
      { status := some (if (pyLower (e.status.getD "warning") == "pass"
            || pyLower (e.status.getD "warning") == "fail"
            || pyLower (e.status.getD "warning") == "warning")
          then pyLower (e.status.getD "warning") else "warning")
        confidence := some (max 0 (min 1 q))
        assessment := some (e.assessment.getD "Assessment not available")
        issues := some (as_string_list (e.issues.getD (.items [])))
        recommendations := some (as_string_list (e.recommendations.getD (.items [])))
        priority := some (if (pyLower (e.priority.getD "medium") == "low"
            || pyLower (e.priority.getD "medium") == "medium"
            || pyLower (e.priority.getD "medium") == "high"
            || pyLower (e.priority.getD "medium") == "critical")
          then pyLower (e.priority.getD "medium") else "medium")
        level := some criteria_data.level
        title := some criteria_data.title
        criteria_id := some (criteria_data.id.getD "unknown")
        error := none } ∧
    (0 : ℚ) ≤ max 0 (min 1 q) ∧ max 0 (min 1 q) ≤ 1 ∧
    ((if (pyLower (e.status.getD "warning") == "pass"
        || pyLower (e.status.getD "warning") == "fail"
        || pyLower (e.status.getD "warning") == "warning")
      then pyLower (e.status.getD "warning") else "warning") = "pass"
      ∨ (if (pyLower (e.status.getD "warning") == "pass"
        || pyLower (e.status.getD "warning") == "fail"
        || pyLower (e.status.getD "warning") == "warning")
      then pyLower (e.status.getD "warning") else "warning") = "fail"
      ∨ (if (pyLower (e.status.getD "warning") == "pass"
        || pyLower (e.status.getD "warning") == "fail"
        || pyLower (e.status.getD "warning") == "warning")
      then pyLower (e.status.getD "warning") else "warning") = "warning") ∧
    ((if (pyLower (e.priority.getD "medium") == "low"
        || pyLower (e.priority.getD "medium") == "medium"
        || pyLower (e.priority.getD "medium") == "high"
        || pyLower (e.priority.getD "medium") == "critical")
      then pyLower (e.priority.getD "medium") else "medium") = "low"
      ∨ (if (pyLower (e.priority.getD "medium") == "low"
        || pyLower (e.priority.getD "medium") == "medium"
        || pyLower (e.priority.getD "medium") == "high"
        || pyLower (e.priority.getD "medium") == "critical")
      then pyLower (e.priority.getD "medium") else "medium") = "medium"
      ∨ (if (pyLower (e.priority.getD "medium") == "low"
        || pyLower (e.priority.getD "medium") == "medium"
        || pyLower (e.priority.getD "medium") == "high"
        || pyLower (e.priority.getD "medium") == "critical")
      then pyLower (e.priority.getD "medium") else "medium") = "high"
      ∨ (if (pyLower (e.priority.getD "medium") == "low"
        || pyLower (e.priority.getD "medium") == "medium"
        || pyLower (e.priority.getD "medium") == "high"
        || pyLower (e.priority.getD "medium") == "critical")
      then pyLower (e.priority.getD "medium") else "medium") = "critical") := by
  refine ⟨?_, le_max_left 0 _, max_le (by norm_num) (min_le_left 1 q), ?_, ?_⟩
  · simp only [parse_ai_response, hq]
  · by_cases h : (pyLower (e.status.getD "warning") == "pass"
        || pyLower (e.status.getD "warning") == "fail"
        || pyLower (e.status.getD "warning") == "warning") = true
    · rw [if_pos h]
      simp only [Bool.or_eq_true, beq_iff_eq] at h
      tauto
    · rw [if_neg h]
      tauto
  · by_cases h : (pyLower (e.priority.getD "medium") == "low"
        || pyLower (e.priority.getD "medium") == "medium"
        || pyLower (e.priority.getD "medium") == "high"
        || pyLower (e.priority.getD "medium") == "critical") = true
    · rw [if_pos h]
      simp only [Bool.or_eq_true, beq_iff_eq] at h
      tauto
    · rw [if_neg h]
      tauto

/-- C7 witness: a record with upper-case status "PASS", invalid priority
"Urgent", confidence 1.5 and a scalar issues value is normalized without
raising. -/
theorem c7_witness :
    parse_ai_response (.decoded raw_eval_p7) criteria_111 = .ok
      { status := some (if (pyLower (raw_eval_p7.status.getD "warning") == "pass"
            || pyLower (raw_eval_p7.status.getD "warning") == "fail"
            || pyLower (raw_eval_p7.status.getD "warning") == "warning")
          then pyLower (raw_eval_p7.status.getD "warning") else "warning")
        confidence := some (max 0 (min 1 (3/2)))
        assessment := some (raw_eval_p7.assessment.getD "Assessment not available")
        issues := some (as_string_list (raw_eval_p7.issues.getD (.items [])))
        recommendations := some (as_string_list (raw_eval_p7.recommendations.getD (.items [])))
        priority := some (if (pyLower (raw_eval_p7.priority.getD "medium") == "low"
            || pyLower (raw_eval_p7.priority.getD "medium") == "medium"
            || pyLower (raw_eval_p7.priority.getD "medium") == "high"
            || pyLower (raw_eval_p7.priority.getD "medium") == "critical")
          then pyLower (raw_eval_p7.priority.getD "medium") else "medium")
        level := some criteria_111.level
        title := some criteria_111.title
        criteria_id := some (criteria_111.id.getD "unknown")
        error := none } ∧
    (0 : ℚ) ≤ max 0 (min 1 (3/2)) ∧ max (0 : ℚ) (min 1 (3/2)) ≤ 1 ∧
    ((if (pyLower (raw_eval_p7.status.getD "warning") == "pass"
        || pyLower (raw_eval_p7.status.getD "warning") == "fail"
        || pyLower (raw_eval_p7.status.getD "warning") == "warning")
      then pyLower (raw_eval_p7.status.getD "warning") else "warning") = "pass"
      ∨ (if (pyLower (raw_eval_p7.status.getD "warning") == "pass"
        || pyLower (raw_eval_p7.status.getD "warning") == "fail"
        || pyLower (raw_eval_p7.status.getD "warning") == "warning")
      then pyLower (raw_eval_p7.status.getD "warning") else "warning") = "fail"
      ∨ (if (pyLower (raw_eval_p7.status.getD "warning") == "pass"
        || pyLower (raw_eval_p7.status.getD "warning") == "fail"
        || pyLower (raw_eval_p7.status.getD "warning") == "warning")
      then pyLower (raw_eval_p7.status.getD "warning") else "warning") = "warning") ∧
    ((if (pyLower (raw_eval_p7.priority.getD "medium") == "low"
        || pyLower (raw_eval_p7.priority.getD "medium") == "medium"
        || pyLower (raw_eval_p7.priority.getD "medium") == "high"
        || pyLower (raw_eval_p7.priority.getD "medium") == "critical")
      then pyLower (raw_eval_p7.priority.getD "medium") else "medium") = "low"
      ∨ (if (pyLower (raw_eval_p7.priority.getD "medium") == "low"
        || pyLower (raw_eval_p7.priority.getD "medium") == "medium"
        || pyLower (raw_eval_p7.priority.getD "medium") == "high"
        || pyLower (raw_eval_p7.priority.getD "medium") == "critical")
      then pyLower (raw_eval_p7.priority.getD "medium") else "medium") = "medium"
      ∨ (if (pyLower (raw_eval_p7.priority.getD "medium") == "low"
        || pyLower (raw_eval_p7.priority.getD "medium") == "medium"
        || pyLower (raw_eval_p7.priority.getD "medium") == "high"
        || pyLower (raw_eval_p7.priority.getD "medium") == "critical")
      then pyLower (raw_eval_p7.priority.getD "medium") else "medium") = "high"
      ∨ (if (pyLower (raw_eval_p7.priority.getD "medium") == "low"
        || pyLower (raw_eval_p7.priority.getD "medium") == "medium"
        || pyLower (raw_eval_p7.priority.getD "medium") == "high"
        || pyLower (raw_eval_p7.priority.getD "medium") == "critical")
      then pyLower (raw_eval_p7.priority.getD "medium") else "medium") = "critical") :=
  c7_verdict_normalization raw_eval_p7 criteria_111 (3/2) rfl

/-- C8: one verdict whose confidence cannot be coerced to a number does
not abort aggregation: its criterion appears as a status-"error" verdict,
every criterion whose reply parses appears with its parsed verdict, and
the whole mapping reaches the report's manual section verbatim. -/
theorem c8_one_bad_verdict (catalog : List (String × CriteriaData))
    (wcag_levels : List String) (responses : String → AIResponse)
    (now : String) (results : AnalysisResults) (bad : String) (msg : String)
    (hbad : ∀ p ∈ catalog.filter (fun p => wcag_levels.contains p.2.level
        && p.2.requires_manual_assessment), p.1 = bad →
      parse_ai_response (responses p.1) p.2 = .error msg) :
    (∀ p ∈ catalog.filter (fun p => wcag_levels.contains p.2.level
        && p.2.requires_manual_assessment), p.1 = bad →
      (p.1, error_verdict msg p.2) ∈ evaluate_manual_criteria catalog wcag_levels responses
        ∧ (error_verdict msg p.2).status = some "error") ∧
    (∀ p ∈ catalog.filter (fun p => wcag_levels.contains p.2.level
        && p.2.requires_manual_assessment), ∀ v : MVerdict,
      parse_ai_response (responses p.1) p.2 = .ok v →
      (p.1, v) ∈ evaluate_manual_criteria catalog wcag_levels responses) ∧
    (evaluate_manual_criteria catalog wcag_levels responses ≠ [] →
      (generate_report now { results with
          manual_results := some (evaluate_manual_criteria catalog wcag_levels responses) }).manual_assessment.availableFlag = true ∧
      (generate_report now { results with
          manual_results := some (evaluate_manual_criteria catalog wcag_levels responses) }).manual_assessment.detailedResults
        = evaluate_manual_criteria catalog wcag_levels responses) := by
  refine ⟨?_, ?_, ?_⟩
  · intro p hp hpb
    refine ⟨?_, rfl⟩
    have hm := List.mem_map_of_mem (f := fun p =>
      (p.1, match parse_ai_response (responses p.1) p.2 with
        | .ok evaluation => evaluation
        | .error msg => error_verdict msg p.2)) hp
    dsimp only at hm
    rw [hbad p hp hpb] at hm
    simpa [evaluate_manual_criteria] using hm
  · intro p hp v hv
    have hm := List.mem_map_of_mem (f := fun p =>
      (p.1, match parse_ai_response (responses p.1) p.2 with
        | .ok evaluation => evaluation
        | .error msg => error_verdict msg p.2)) hp
    dsimp only at hm
    rw [hv] at hm
    simpa [evaluate_manual_criteria] using hm
  · intro hne
    constructor <;>
      simp [generate_report, process_manual_results, ProcessedManual.availableFlag,
        ProcessedManual.detailedResults, List.isEmpty_iff, hne]

/-- C8 witness: in a ten-criterion run where criterion 2.4.6 returns a
non-numeric confidence, 2.4.6 is surfaced as an error verdict, criterion
1.1.1 keeps its parsed verdict, and the report carries all of them. -/
theorem c8_witness :
    (("2.4.6", error_verdict bad_msg_p7 criteria_246)
        ∈ evaluate_manual_criteria catalog_p7 ["A", "AA"] responses_p7
      ∧ (error_verdict bad_msg_p7 criteria_246).status = some "error") ∧
    (("1.1.1", verdict_111_p7)
        ∈ evaluate_manual_criteria catalog_p7 ["A", "AA"] responses_p7) ∧
    ((generate_report "2024-01-01T00:00:00" {
        manual_results := some (evaluate_manual_criteria catalog_p7 ["A", "AA"] responses_p7) }).manual_assessment.availableFlag = true ∧
     (generate_report "2024-01-01T00:00:00" {
        manual_results := some (evaluate_manual_criteria catalog_p7 ["A", "AA"] responses_p7) }).manual_assessment.detailedResults
        = evaluate_manual_criteria catalog_p7 ["A", "AA"] responses_p7) := by
  obtain ⟨ha, hb, hc⟩ := c8_one_bad_verdict catalog_p7 ["A", "AA"] responses_p7
    "2024-01-01T00:00:00" {} "2.4.6" bad_msg_p7 (by decide)
  refine ⟨?_, ?_, ?_⟩
  · exact ha ("2.4.6", criteria_246) (by decide) rfl
  · exact hb ("1.1.1", { id := some "1.1.1", title := "Non-text Content", level := "A" })
      (by decide) verdict_111_p7 (by rfl)
  · exact hc (by decide)

/-- C9 counterexample: on an input without a timestamp, `generate_report`
reads the clock for the meta timestamp, so two calls on the identical
input at different times produce different reports — the claim's
"no hidden clock dependence" fails as stated. -/
theorem c9_clock_counterexample :
    (generate_report "2024-01-01T00:00:00" analysis_no_timestamp).meta.timestamp
        = "2024-01-01T00:00:00" ∧
    (generate_report "2024-01-02T09:30:00" analysis_no_timestamp).meta.timestamp
        = "2024-01-02T09:30:00" ∧
    generate_report "2024-01-01T00:00:00" analysis_no_timestamp ≠
      generate_report "2024-01-02T09:30:00" analysis_no_timestamp :=
  ⟨rfl, rfl, fun h => absurd (congrArg (fun r => r.meta.timestamp) h) (by decide)⟩

/-- C9 amended: when the caller supplies a timestamp, `generate_report` is
independent of the clock — two calls on identical inputs yield identical
reports — and the timestamp is passed through verbatim. -/
theorem c9_amended_deterministic (now1 now2 : String) (results : AnalysisResults)
    (t : String) (h : results.timestamp = some t) :
    generate_report now1 results = generate_report now2 results ∧
    (generate_report now1 results).meta.timestamp = t := by
  constructor
  · simp [generate_report, generate_meta_info, h]
  · simp [generate_report, generate_meta_info, h]

/-- C9 witness: a timestamped input produces identical reports under two
different clock readings. -/
theorem c9_amended_witness :
    generate_report "A" analysis_with_timestamp = generate_report "B" analysis_with_timestamp ∧
    (generate_report "A" analysis_with_timestamp).meta.timestamp = "2024-03-04T05:06:07" :=
  c9_amended_deterministic "A" "B" analysis_with_timestamp "2024-03-04T05:06:07" rfl

/-- C10: a present-but-empty automated record is treated exactly like an
absent one for the processed automated section and the compliance score,
yet the meta `testing_methods.automated` flag reports true (it checks only
for a non-null value), and the two reports differ in nothing else. -/
theorem c10_present_but_empty (now : String) (results : AnalysisResults) :
    (generate_report now { results with automated_results := some {} }).automated_results
        = ProcessedAuto.unavailable ∧
    (generate_report now { results with automated_results := none }).automated_results
        = ProcessedAuto.unavailable ∧
    (generate_report now { results with automated_results := some {} }).compliance_score
        = (generate_report now { results with automated_results := none }).compliance_score ∧
    (generate_report now { results with automated_results := some {} }).meta.testing_methods_automated
        = true ∧
    (generate_report now { results with automated_results := none }).meta.testing_methods_automated
        = false ∧
    generate_report now { results with automated_results := some {} }
      = { generate_report now { results with automated_results := none } with
          meta := { (generate_report now { results with automated_results := none }).meta with
                    testing_methods_automated := true } } := by
  refine ⟨by simp [generate_report, process_automated_results, AutoResults.isTruthy],
    by simp [generate_report, process_automated_results],
    ?_, rfl, rfl, ?_⟩
  · simp [generate_report, calculate_compliance_score, AutoResults.isTruthy]
  · simp [generate_report, generate_meta_info, generate_summary, extract_key_findings,
      determine_overall_status, calculate_compliance_score, process_automated_results,
      generate_wcag_compliance_summary, generate_recommendations, automated_recommendations,
      manual_recommendations, generate_detailed_findings, format_automated_findings,
      format_manual_findings, generate_cross_references, AutoResults.isTruthy]
